import Mathlib

/-!
# otp-manager: creation and validation of TOTP accounts

A shallow embedding of `internal/db/db.go`, `internal/services/otp_service.go`,
`api/models.go` and `api/controllers/otp_controller.go`.

The Go code talks to three outside collaborators: the Badger key-value engine, the
`pquerna/otp` library and the URI binding of gin.  Their behaviour during one request is
passed in as data (`Faults`, `Env`), the contents of the database are an explicit
state, and every operation returns the repository and TOTP calls it made.
-/

namespace OtpManager

/-! ## Values -/

/-- Go `error` value, identified by the text its `Error()` method returns. -/
structure Error where
  msg : String
deriving DecidableEq, Repr

/-- Struct `OTPUser` of `api/models.go`. -/
structure OTPUser where
  AccountName : String
deriving DecidableEq, Repr

/-- Struct `OneTimeCode` of `api/models.go`. -/
structure OneTimeCode where
  Code : String
deriving DecidableEq, Repr

/-- What the code reads of an `otp.Key`: issuer, account name and secret. -/
structure Key where
  Issuer : String
  AccountName : String
  Secret : String
deriving DecidableEq, Repr

/-- An `image.Image`, as a list of pixel values. -/
structure Image where
  pixels : List Nat
deriving DecidableEq, Repr

/-- Calls to the repository and to the TOTP library, in the order they are made; a
`SaveSecret` call is recorded with the error it returned (`none` for `nil`). -/
inductive Call where
  | GetSecret (accountName : String)
  | SaveSecret (accountName secret : String) (err : Option Error)
  | Generate (issuer accountName : String)
  | Validate (passcode secret : String)
deriving DecidableEq, Repr

/-- Is the call a `SaveSecret`. -/
def Call.isSave : Call → Bool
  | .SaveSecret _ _ _ => true
  | _ => false

/-- Is the call a `GetSecret`. -/
def Call.isGet : Call → Bool
  | .GetSecret _ => true
  | _ => false

/-- Is the call made to the TOTP library. -/
def Call.isTOTP : Call → Bool
  | .Generate _ _ => true
  | .Validate _ _ => true
  | _ => false

/-- Result of running an operation on a store: the returned value, the store afterwards
and the calls made on the way. -/
structure Outcome (σ α : Type) where
  value : α
  store : σ
  calls : List Call

/-! ## internal/db/db.go -/

/-- Interface `OTPRepository`, over a store of type `σ`.  `SaveSecret` returns its error
(`none` for `nil`) and the store afterwards; `GetSecret` is a lookup and returns the
pair `(secret, err)`. -/
structure OTPRepository (σ : Type) where
  SaveSecret : String → String → σ → Option Error × σ
  GetSecret : String → σ → String × Option Error

/-- Committed contents of the Badger database `Connection`: key and value pairs, at
most one for a key that was written through `DB.put`. -/
abbrev DB := List (String × String)

/-- Value stored under a key. -/
def DB.get (db : DB) (key : String) : Option String :=
  List.lookup key db

/-- Contents after writing `value` under `key`: the former entry of the key is replaced. -/
def DB.put (db : DB) (key value : String) : DB :=
  (key, value) :: db.filter (fun e => e.1 != key)

/-- Failures of the Badger engine itself during one request: the error of `txn.Set` for
a key and value, of the commit that ends `Update`, of `txn.Get` for a key (other than
the key not being stored), and of `item.ValueCopy` for the item of a key; `none` where
the engine does not fail. -/
structure Faults where
  Set : String → String → Option Error
  Commit : Option Error
  Get : String → Option Error
  ValueCopy : String → Option Error

/-- An engine that never fails. -/
def Faults.healthy : Faults :=
  ⟨fun _ _ => none, none, fun _ => none, fun _ => none⟩

/-- Reads do not fail in the engine: `GetSecret` then fails exactly for a name that is
not stored. -/
def Faults.readsOk (f : Faults) : Prop :=
  ∀ key, f.Get key = none ∧ f.ValueCopy key = none

/-- Error `ErrKeyNotFound` of Badger. -/
def ErrKeyNotFound : Error := ⟨"Key not found"⟩

/-- A Badger transaction: the committed contents it reads and its pending writes,
latest first. -/
structure Txn where
  db : DB
  pending : List (String × String)

/-- An item returned by `txn.Get`. -/
structure Item where
  key : String
  value : String

/-- Call `txn.Set(key, value)`: the write is pending until the commit. -/
def Txn.Set (f : Faults) (txn : Txn) (key value : String) : Option Error × Txn :=
  match f.Set key value with
  | some err => (some err, txn)
  | none => (none, { txn with pending := (key, value) :: txn.pending })

/-- Call `txn.Get(key)`: `ErrKeyNotFound` for a key that is not stored. -/
def Txn.Get (f : Faults) (txn : Txn) (key : String) : Except Error Item :=
  match f.Get key with
  | some err => .error err
  | none =>
    match DB.get (txn.pending ++ txn.db) key with
    | none => .error ErrKeyNotFound
    | some value => .ok ⟨key, value⟩

/-- Call `item.ValueCopy(nil)`. -/
def Item.ValueCopy (f : Faults) (item : Item) : Except Error String :=
  match f.ValueCopy item.key with
  | some err => .error err
  | none => .ok item.value

/-- Call `Connection.View(fn)`: `fn` runs in a read-only transaction; `α` is the
variable of the caller that `fn` assigns. -/
def DB.View {α : Type} (db : DB) (fn : Txn → α × Option Error) : α × Option Error :=
  fn ⟨db, []⟩

/-- Call `Connection.Update(fn)`: `fn` runs in a read-write transaction that is
committed when `fn` returns `nil` and discarded when it returns an error; a failed
commit writes nothing. -/
def DB.Update (f : Faults) (db : DB) (fn : Txn → Option Error × Txn) : Option Error × DB :=
  match fn ⟨db, []⟩ with
  | (some err, _) => (some err, db)
  | (none, txn) =>
    match f.Commit with
    | some err => (some err, db)
    | none => (none, txn.pending.foldr (fun e d => DB.put d e.1 e.2) db)

/-- Method `OTPBadgerRepository.SaveSecret`. -/
def OTPBadgerRepository.SaveSecret (f : Faults) (accountName secret : String) (conn : DB) :
    Option Error × DB :=
  DB.Update f conn (fun txn => Txn.Set f txn accountName secret)

/-- Method `OTPBadgerRepository.GetSecret`; the named result `secret` is the empty
string until the closure assigns it. -/
def OTPBadgerRepository.GetSecret (f : Faults) (accountName : String) (conn : DB) :
    String × Option Error :=
  DB.View conn (fun txn =>
    match Txn.Get f txn accountName with
    | .error err => ("", some err)
    | .ok item =>
      match Item.ValueCopy f item with
      | .error err => ("", some err)
      | .ok copy => (copy, none))

/-- Type `OTPBadgerRepository`, as an `OTPRepository` over the database contents. -/
def OTPBadgerRepository (f : Faults) : OTPRepository DB where
  SaveSecret := OTPBadgerRepository.SaveSecret f
  GetSecret := OTPBadgerRepository.GetSecret f

/-! ## The outside collaborators of a request -/

/-- The validator behind the binding of gin: which strings pass the `email` tag, and the
error reported for a field that fails a tag. -/
structure Validator where
  email : String → Bool
  FieldError : String → String → Error

/-- What the outside world answers during one request: the environment variable
`OTP_ISSUER`, `totp.Generate` for an issuer and account name,
`totp.Validate` for a passcode and secret at the current time, `key.Image` for a width
and height, and the bytes `png.Encode` writes for an image. -/
structure Env where
  OTP_ISSUER : String
  Generate : String → String → Except Error Key
  Validate : String → String → Bool
  Image : Key → Nat → Nat → Except Error Image
  Encode : OtpManager.Image → List Nat

/-! ## internal/services/otp_service.go -/

/-- Method `OTPService.GenerateOTPSecret`. -/
def OTPService.GenerateOTPSecret {σ : Type} (env : Env) (otpUser : OTPUser) (st : σ) :
    Outcome σ (Except Error Key) :=
  ⟨env.Generate env.OTP_ISSUER otpUser.AccountName, st,
    [Call.Generate env.OTP_ISSUER otpUser.AccountName]⟩

/-- Method `OTPService.CreateOTPSecret`; the value is the pair `(key, err)`, with `none`
for `nil`. -/
def OTPService.CreateOTPSecret {σ : Type} (env : Env) (repo : OTPRepository σ)
    (otpUser : OTPUser) (st : σ) : Outcome σ (Option Key × Option Error) :=
  let g := OTPService.GenerateOTPSecret env otpUser st
  match g.value with
  | .error err => ⟨(none, some err), g.store, g.calls⟩
  | .ok key =>
    let saved := repo.SaveSecret otpUser.AccountName key.Secret g.store
    ⟨(some key, saved.1), saved.2,
      g.calls ++ [Call.SaveSecret otpUser.AccountName key.Secret saved.1]⟩

/-- Method `OTPService.GetOTPSecret`; the value is the pair `(secret, err)`. -/
def OTPService.GetOTPSecret {σ : Type} (repo : OTPRepository σ) (otpUser : OTPUser)
    (st : σ) : Outcome σ (String × Option Error) :=
  ⟨repo.GetSecret otpUser.AccountName st, st, [Call.GetSecret otpUser.AccountName]⟩

/-- Method `OTPService.ValidateOTPCode`. -/
def OTPService.ValidateOTPCode {σ : Type} (env : Env) (secret code : String) (st : σ) :
    Outcome σ Bool :=
  ⟨env.Validate code secret, st, [Call.Validate code secret]⟩

/-! ## api/controllers/otp_controller.go -/

/-- Body of a response: `c.JSON` with a one-entry `gin.H`, `c.Data` with a content type
and bytes, or nothing. -/
inductive Body where
  | JSON (key value : String)
  | Data (contentType : String) (data : List Nat)
  | Empty
deriving DecidableEq, Repr

/-- Status code and body written to the `gin.Context`. -/
structure Response where
  status : Nat
  body : Body
deriving DecidableEq, Repr

/-- Call `c.ShouldBindUri(&user)` for an `OTPUser`: the URI parameter `account-name` is
bound with `binding:"required,email"`. -/
def ShouldBindUriOTPUser (v : Validator) (accountName : String) : Except Error OTPUser :=
  if accountName = "" then .error (v.FieldError "AccountName" "required")
  else if v.email accountName then .ok ⟨accountName⟩
  else .error (v.FieldError "AccountName" "email")

/-- Call `c.ShouldBindUri(&code)` for a `OneTimeCode`: the URI parameter `code` is bound
with `binding:"required"`. -/
def ShouldBindUriOneTimeCode (v : Validator) (code : String) : Except Error OneTimeCode :=
  if code = "" then .error (v.FieldError "Code" "required")
  else .ok ⟨code⟩

/-- Handler `OTPController.CreateOTPAccount` for `POST /account/:account-name`. -/
def OTPController.CreateOTPAccount {σ : Type} (v : Validator) (env : Env)
    (repo : OTPRepository σ)
    (accountName : String) (st : σ) : Outcome σ Response :=
  match ShouldBindUriOTPUser v accountName with
  | .error err => ⟨⟨400, .JSON "error" err.msg⟩, st, []⟩
  | .ok user =>
    let got := OTPService.GetOTPSecret repo user st
    match got.value.2 with
    | none => ⟨⟨400, .JSON "error" "OTP already created"⟩, got.store, got.calls⟩
    | some _ =>
      let created := OTPService.CreateOTPSecret env repo user got.store
      match created.value with
      | (_, some err) =>
        ⟨⟨500, .JSON "error" err.msg⟩, created.store, got.calls ++ created.calls⟩
      | (none, none) =>
        -- `key.Image` on a nil key panics; the recovery handler of `gin.Default` answers
        ⟨⟨500, .Empty⟩, created.store, got.calls ++ created.calls⟩
      | (some key, none) =>
        match env.Image key 200 200 with
        | .error err =>
          ⟨⟨400, .JSON "error" err.msg⟩, created.store, got.calls ++ created.calls⟩
        | .ok img =>
          ⟨⟨200, .Data "image/png" (env.Encode img)⟩, created.store,
            got.calls ++ created.calls⟩

/-- Handler `OTPController.ValidateCode` for
`POST /account/:account-name/validate/:code`. -/
def OTPController.ValidateCode {σ : Type} (v : Validator) (env : Env)
    (repo : OTPRepository σ)
    (accountName code : String) (st : σ) : Outcome σ Response :=
  match ShouldBindUriOTPUser v accountName with
  | .error err => ⟨⟨400, .JSON "error" err.msg⟩, st, []⟩
  | .ok user =>
    match ShouldBindUriOneTimeCode v code with
    | .error err => ⟨⟨400, .JSON "error" err.msg⟩, st, []⟩
    | .ok code =>
      let got := OTPService.GetOTPSecret repo user st
      match got.value.2 with
      | some _ => ⟨⟨404, .JSON "error" "Account not found"⟩, got.store, got.calls⟩
      | none =>
        let valid := OTPService.ValidateOTPCode env got.value.1 code.Code got.store
        if valid.value = false then
          ⟨⟨403, .JSON "error" "Invalid code"⟩, valid.store, got.calls ++ valid.calls⟩
        else
          ⟨⟨200, .JSON "status" "validated"⟩, valid.store, got.calls ++ valid.calls⟩

/-! ## Concrete collaborators, used to run the code on examples -/

/-- A validator for examples: an address passes the `email` tag when it holds an `@`;
the error text names the field and the tag. -/
def exampleValidator : Validator where
  email := fun s => s.data.contains '@'
  FieldError := fun field tag =>
    ⟨"Field validation for " ++ field ++ " failed on the " ++ tag ++ " tag"⟩

/-- An environment for examples: generation gives the secret `SECRET1`, the passcode
`000000` alone validates and every key renders as a one-pixel image. -/
def exampleEnv : Env where
  OTP_ISSUER := "Test"
  Generate := fun issuer accountName => .ok ⟨issuer, accountName, "SECRET1"⟩
  Validate := fun passcode _ => passcode == "000000"
  Image := fun _ _ _ => .ok ⟨[0]⟩
  Encode := fun img => img.pixels

/-- An environment whose keys do not render: `key.Image` fails. -/
def noImageEnv : Env :=
  { exampleEnv with Image := fun _ _ _ => .error ⟨"can not scale barcode"⟩ }

/-- An engine whose commit fails with the error `SIMULATED`. -/
def failingCommit : Faults :=
  { Faults.healthy with Commit := some ⟨"SIMULATED"⟩ }

/-! ## Sequences of requests -/

/-- A request to the API, or a direct call of `CreateOTPSecret`, together with what
the collaborators answer while it is served. -/
inductive Op where
  | CreateOTPAccount (env : Env) (f : Faults) (accountName : String)
  | ValidateCode (env : Env) (f : Faults) (accountName code : String)
  | CreateOTPSecret (env : Env) (f : Faults) (otpUser : OTPUser)

/-- Serve one request on the Badger repository: the database afterwards and the calls
made. -/
def Op.run (v : Validator) (op : Op) (conn : DB) : DB × List Call :=
  match op with
  | .CreateOTPAccount env f accountName =>
    let r := OTPController.CreateOTPAccount v env (OTPBadgerRepository f) accountName conn
    (r.store, r.calls)
  | .ValidateCode env f accountName code =>
    let r := OTPController.ValidateCode v env (OTPBadgerRepository f) accountName code conn
    (r.store, r.calls)
  | .CreateOTPSecret env f otpUser =>
    let r := OTPService.CreateOTPSecret env (OTPBadgerRepository f) otpUser conn
    (r.store, r.calls)

/-- Serve requests one after the other: the database afterwards and all calls made. -/
def serve (v : Validator) : List Op → DB → DB × List Call
  | [], conn => (conn, [])
  | op :: ops, conn =>
    let first := op.run v conn
    let rest := serve v ops first.1
    (rest.1, first.2 ++ rest.2)

/-! ## The database and the Badger repository -/

theorem DB.get_put_same (db : DB) (key value : String) :
    (DB.put db key value).get key = some value := by
  simp [DB.put, DB.get, List.lookup]

theorem DB.get_filter_other (db : DB) (key other : String) (h : other ≠ key) :
    DB.get (db.filter (fun e => e.1 != key)) other = DB.get db other := by
  induction db with
  | nil => rfl
  | cons e rest ih =>
    obtain ⟨k, x⟩ := e
    by_cases hk : k = key
    · subst hk
      have hne : (other == k) = false := by simpa using h
      simpa [DB.get, List.filter, List.lookup, hne] using ih
    · have hkeep : (k != key) = true := by simpa using hk
      simp only [DB.get, List.filter, hkeep, List.lookup] at ih ⊢
      cases hok : (other == k) <;> simp [ih]

theorem DB.get_put_other (db : DB) (key value other : String) (h : other ≠ key) :
    (DB.put db key value).get other = db.get other := by
  have hne : (other == key) = false := by simpa using h
  have := DB.get_filter_other db key other h
  simpa [DB.put, DB.get, List.lookup, hne] using this

/-- A failed `SaveSecret` leaves the database as it was. -/
theorem SaveSecret_failed (f : Faults) (accountName secret : String) (conn : DB) (e : Error)
    (h : (OTPBadgerRepository.SaveSecret f accountName secret conn).1 = some e) :
    (OTPBadgerRepository.SaveSecret f accountName secret conn).2 = conn := by
  unfold OTPBadgerRepository.SaveSecret DB.Update Txn.Set at *
  cases hs : f.Set accountName secret <;> cases hc : f.Commit <;> simp_all

/-- A successful `SaveSecret` writes the secret under the account name. -/
theorem SaveSecret_done (f : Faults) (accountName secret : String) (conn : DB)
    (h : (OTPBadgerRepository.SaveSecret f accountName secret conn).1 = none) :
    (OTPBadgerRepository.SaveSecret f accountName secret conn).2 =
      DB.put conn accountName secret := by
  unfold OTPBadgerRepository.SaveSecret DB.Update Txn.Set at *
  cases hs : f.Set accountName secret <;> cases hc : f.Commit <;> simp_all

/-- Result of `GetSecret` for a name that is not stored: the empty string and an error,
which is `ErrKeyNotFound` unless the engine fails otherwise. -/
theorem GetSecret_absent (f : Faults) (accountName : String) (conn : DB)
    (h : conn.get accountName = none) :
    (OTPBadgerRepository.GetSecret f accountName conn).1 = "" ∧
    (OTPBadgerRepository.GetSecret f accountName conn).2 ≠ none ∧
    (f.Get accountName = none →
      OTPBadgerRepository.GetSecret f accountName conn = ("", some ErrKeyNotFound)) := by
  unfold OTPBadgerRepository.GetSecret DB.View Txn.Get
  cases hf : f.Get accountName <;> simp [h]

/-- Result of `GetSecret` for a stored name, when the engine reads without failure. -/
theorem GetSecret_present (f : Faults) (accountName secret : String) (conn : DB)
    (h : conn.get accountName = some secret) (hr : f.readsOk) :
    OTPBadgerRepository.GetSecret f accountName conn = (secret, none) := by
  simp [OTPBadgerRepository.GetSecret, DB.View, Txn.Get, Item.ValueCopy, h,
    (hr accountName).1, (hr accountName).2]

/-- A `GetSecret` without error returns the stored value. -/
theorem GetSecret_found (f : Faults) (accountName : String) (conn : DB)
    (h : (OTPBadgerRepository.GetSecret f accountName conn).2 = none) :
    conn.get accountName = some (OTPBadgerRepository.GetSecret f accountName conn).1 := by
  unfold OTPBadgerRepository.GetSecret DB.View Txn.Get Item.ValueCopy at *
  simp only [List.nil_append] at *
  cases hg : DB.get conn accountName <;> cases hf : f.Get accountName <;>
    cases hv : f.ValueCopy accountName <;> simp_all

theorem Faults.healthy_readsOk : Faults.healthy.readsOk := fun _ => ⟨rfl, rfl⟩

/-- Binding an `OTPUser` succeeds exactly for a non-empty name that passes `email`. -/
theorem ShouldBindUriOTPUser_ok (v : Validator) (accountName : String)
    (h : accountName ≠ "" ∧ v.email accountName = true) :
    ShouldBindUriOTPUser v accountName = .ok ⟨accountName⟩ := by
  simp [ShouldBindUriOTPUser, h.1, h.2]

theorem ShouldBindUriOTPUser_error (v : Validator) (accountName : String)
    (h : accountName = "" ∨ v.email accountName = false) :
    ∃ err, ShouldBindUriOTPUser v accountName = .error err := by
  unfold ShouldBindUriOTPUser
  by_cases h0 : accountName = ""
  · exact ⟨v.FieldError "AccountName" "required", by simp [h0]⟩
  · rcases h with h | h
    · exact absurd h h0
    · exact ⟨v.FieldError "AccountName" "email", by simp [h0, h]⟩

/-! ## The service and the handlers, case by case -/

/-- Run of `CreateOTPSecret` when a key is generated: the key and the result of
`SaveSecret`. -/
theorem CreateOTPSecret_generated {σ : Type} (env : Env) (repo : OTPRepository σ)
    (otpUser : OTPUser) (st : σ) (key : Key)
    (hgen : env.Generate env.OTP_ISSUER otpUser.AccountName = .ok key) :
    OTPService.CreateOTPSecret env repo otpUser st =
      ⟨(some key, (repo.SaveSecret otpUser.AccountName key.Secret st).1),
        (repo.SaveSecret otpUser.AccountName key.Secret st).2,
        [Call.Generate env.OTP_ISSUER otpUser.AccountName,
          Call.SaveSecret otpUser.AccountName key.Secret
            (repo.SaveSecret otpUser.AccountName key.Secret st).1]⟩ := by
  simp [OTPService.CreateOTPSecret, OTPService.GenerateOTPSecret, hgen]

/-- Run of `CreateOTPSecret` when generation fails: the error, and nothing is saved. -/
theorem CreateOTPSecret_not_generated {σ : Type} (env : Env) (repo : OTPRepository σ)
    (otpUser : OTPUser) (st : σ) (err : Error)
    (hgen : env.Generate env.OTP_ISSUER otpUser.AccountName = .error err) :
    OTPService.CreateOTPSecret env repo otpUser st =
      ⟨(none, some err), st, [Call.Generate env.OTP_ISSUER otpUser.AccountName]⟩ := by
  simp [OTPService.CreateOTPSecret, OTPService.GenerateOTPSecret, hgen]

/-- The create handler on a bound name whose lookup succeeds. -/
theorem CreateOTPAccount_found {σ : Type} (v : Validator) (env : Env)
    (repo : OTPRepository σ) (accountName : String) (st : σ)
    (hvalid : accountName ≠ "" ∧ v.email accountName = true)
    (hfound : (repo.GetSecret accountName st).2 = none) :
    OTPController.CreateOTPAccount v env repo accountName st =
      ⟨⟨400, .JSON "error" "OTP already created"⟩, st, [Call.GetSecret accountName]⟩ := by
  simp [OTPController.CreateOTPAccount, ShouldBindUriOTPUser_ok v accountName hvalid,
    OTPService.GetOTPSecret, hfound]

/-- The create handler on a name that fails binding. -/
theorem CreateOTPAccount_unbound {σ : Type} (v : Validator) (env : Env)
    (repo : OTPRepository σ) (accountName : String) (st : σ) (err : Error)
    (hbind : ShouldBindUriOTPUser v accountName = .error err) :
    OTPController.CreateOTPAccount v env repo accountName st =
      ⟨⟨400, .JSON "error" err.msg⟩, st, []⟩ := by
  simp [OTPController.CreateOTPAccount, hbind]

/-! ## Creating an account that already has a secret -/

/-- C1, as stated, fails: the name `gabrielricci` has a stored secret and `GetSecret`
succeeds for it, yet the create handler answers with the binding error of the `email`
tag and not with "OTP already created". -/
theorem CreateOTPAccount_duplicate_unbound_name :
    ((OTPBadgerRepository Faults.healthy).GetSecret "gabrielricci"
        [("gabrielricci", "SECRET0")]).2 = none ∧
    (OTPController.CreateOTPAccount exampleValidator exampleEnv
        (OTPBadgerRepository Faults.healthy) "gabrielricci"
        [("gabrielricci", "SECRET0")]).value =
      ⟨400, .JSON "error" "Field validation for AccountName failed on the email tag"⟩ ∧
    (OTPController.CreateOTPAccount exampleValidator exampleEnv
        (OTPBadgerRepository Faults.healthy) "gabrielricci"
        [("gabrielricci", "SECRET0")]).value ≠
      ⟨400, .JSON "error" "OTP already created"⟩ := by
  decide

/-- C1 (amended): for every repository, store state and account name that passes URI
binding (non-empty, accepted by the `email` tag) and for which `GetSecret` succeeds,
`CreateOTPAccount` responds 400 with the error "OTP already created", its only call is
`GetSecret` (so `SaveSecret` is never invoked), and the store, hence the stored secret of
the account, is unchanged. -/
theorem CreateOTPAccount_duplicate {σ : Type} (v : Validator) (env : Env)
    (repo : OTPRepository σ) (accountName : String) (st : σ)
    (hvalid : accountName ≠ "" ∧ v.email accountName = true)
    (hfound : (repo.GetSecret accountName st).2 = none) :
    (OTPController.CreateOTPAccount v env repo accountName st).value =
      ⟨400, .JSON "error" "OTP already created"⟩ ∧
    (OTPController.CreateOTPAccount v env repo accountName st).calls =
      [Call.GetSecret accountName] ∧
    (∀ c ∈ (OTPController.CreateOTPAccount v env repo accountName st).calls,
      c.isSave = false) ∧
    (OTPController.CreateOTPAccount v env repo accountName st).store = st ∧
    repo.GetSecret accountName
        (OTPController.CreateOTPAccount v env repo accountName st).store =
      repo.GetSecret accountName st := by
  rw [CreateOTPAccount_found v env repo accountName st hvalid hfound]
  simp [Call.isSave]

theorem CreateOTPAccount_duplicate_witness :
    (OTPController.CreateOTPAccount exampleValidator exampleEnv
        (OTPBadgerRepository Faults.healthy) "gabrielricci+existing@gmail.com"
        [("gabrielricci+existing@gmail.com", "SECRET0")]).value =
      ⟨400, .JSON "error" "OTP already created"⟩ :=
  (CreateOTPAccount_duplicate exampleValidator exampleEnv
    (OTPBadgerRepository Faults.healthy) "gabrielricci+existing@gmail.com"
    [("gabrielricci+existing@gmail.com", "SECRET0")] (by decide) (by decide)).1

/-- C2, as stated, fails: the account `valid` has the stored secret `secret`, and
`CreateOTPSecret` succeeds all the same: it makes no `GetSecret` call, generates a key
and overwrites the stored secret. -/
theorem CreateOTPSecret_overwrites :
    (OTPBadgerRepository Faults.healthy).GetSecret "valid" [("valid", "secret")] =
      ("secret", none) ∧
    (OTPService.CreateOTPSecret exampleEnv (OTPBadgerRepository Faults.healthy)
        ⟨"valid"⟩ [("valid", "secret")]).value =
      (some ⟨"Test", "valid", "SECRET1"⟩, none) ∧
    (OTPService.CreateOTPSecret exampleEnv (OTPBadgerRepository Faults.healthy)
        ⟨"valid"⟩ [("valid", "secret")]).store = [("valid", "SECRET1")] ∧
    (OTPService.CreateOTPSecret exampleEnv (OTPBadgerRepository Faults.healthy)
        ⟨"valid"⟩ [("valid", "secret")]).calls =
      [Call.Generate "Test" "valid", Call.SaveSecret "valid" "SECRET1" none] := by
  decide

/-- C2 (amended): for every account name, `CreateOTPSecret` never queries the store: it
calls `totp.Generate` and, when a key is generated, calls `SaveSecret` with the secret
of that key whatever the store holds, returning the key and the error of `SaveSecret`;
when generation fails it returns that error and the store is untouched.  The query for
an existing secret is made by the handler `CreateOTPAccount`: for a name that passes
binding and for which `GetSecret` succeeds, the handler calls `GetSecret` only, so no
secret is generated or persisted. -/
theorem CreateOTPSecret_no_lookup {σ : Type} (v : Validator) (env : Env)
    (repo : OTPRepository σ) (otpUser : OTPUser) (st : σ) :
    (∀ c ∈ (OTPService.CreateOTPSecret env repo otpUser st).calls, c.isGet = false) ∧
    (∀ err, env.Generate env.OTP_ISSUER otpUser.AccountName = .error err →
      (OTPService.CreateOTPSecret env repo otpUser st).value = (none, some err) ∧
      (OTPService.CreateOTPSecret env repo otpUser st).store = st ∧
      (OTPService.CreateOTPSecret env repo otpUser st).calls =
        [Call.Generate env.OTP_ISSUER otpUser.AccountName]) ∧
    (∀ key, env.Generate env.OTP_ISSUER otpUser.AccountName = .ok key →
      (OTPService.CreateOTPSecret env repo otpUser st).value =
        (some key, (repo.SaveSecret otpUser.AccountName key.Secret st).1) ∧
      (OTPService.CreateOTPSecret env repo otpUser st).store =
        (repo.SaveSecret otpUser.AccountName key.Secret st).2 ∧
      (OTPService.CreateOTPSecret env repo otpUser st).calls =
        [Call.Generate env.OTP_ISSUER otpUser.AccountName,
          Call.SaveSecret otpUser.AccountName key.Secret
            (repo.SaveSecret otpUser.AccountName key.Secret st).1]) ∧
    (otpUser.AccountName ≠ "" ∧ v.email otpUser.AccountName = true →
      (repo.GetSecret otpUser.AccountName st).2 = none →
      (OTPController.CreateOTPAccount v env repo otpUser.AccountName st).calls =
        [Call.GetSecret otpUser.AccountName] ∧
      (∀ c ∈ (OTPController.CreateOTPAccount v env repo otpUser.AccountName st).calls,
        c.isSave = false ∧ c.isTOTP = false) ∧
      (OTPController.CreateOTPAccount v env repo otpUser.AccountName st).store = st) := by
  refine ⟨?_, ?_, ?_, ?_⟩
  · intro c hc
    unfold OTPService.CreateOTPSecret OTPService.GenerateOTPSecret at hc
    cases hg : env.Generate env.OTP_ISSUER otpUser.AccountName with
    | error e =>
      rw [hg] at hc
      simp only [List.mem_singleton] at hc
      rw [hc]; rfl
    | ok k =>
      rw [hg] at hc
      simp only [List.mem_append, List.mem_singleton] at hc
      rcases hc with hc | hc <;> rw [hc] <;> rfl
  · intro err hg
    rw [CreateOTPSecret_not_generated env repo otpUser st err hg]
    exact ⟨rfl, rfl, rfl⟩
  · intro key hg
    rw [CreateOTPSecret_generated env repo otpUser st key hg]
    exact ⟨rfl, rfl, rfl⟩
  · intro hvalid hfound
    rw [CreateOTPAccount_found v env repo otpUser.AccountName st hvalid hfound]
    simp [Call.isSave, Call.isTOTP]

theorem CreateOTPSecret_no_lookup_witness :
    (OTPService.CreateOTPSecret exampleEnv (OTPBadgerRepository Faults.healthy)
        ⟨"valid"⟩ [("valid", "secret")]).calls =
      [Call.Generate "Test" "valid", Call.SaveSecret "valid" "SECRET1" none] :=
  ((CreateOTPSecret_no_lookup exampleValidator exampleEnv
    (OTPBadgerRepository Faults.healthy) ⟨"valid"⟩ [("valid", "secret")]).2.2.1
      ⟨"Test", "valid", "SECRET1"⟩ rfl).2.2

/-! ## Creating an account that has no secret -/

/-- The create handler on a bound name whose lookup fails and whose key is generated:
the response is decided by `SaveSecret` and then by `key.Image`. -/
theorem CreateOTPAccount_new {σ : Type} (v : Validator) (env : Env)
    (repo : OTPRepository σ) (accountName : String) (st : σ) (key : Key)
    (hvalid : accountName ≠ "" ∧ v.email accountName = true)
    (hmiss : (repo.GetSecret accountName st).2 ≠ none)
    (hgen : env.Generate env.OTP_ISSUER accountName = .ok key) :
    (OTPController.CreateOTPAccount v env repo accountName st).value =
      (match (repo.SaveSecret accountName key.Secret st).1 with
        | some e => ⟨500, .JSON "error" e.msg⟩
        | none =>
          match env.Image key 200 200 with
          | .error err => ⟨400, .JSON "error" err.msg⟩
          | .ok img => ⟨200, .Data "image/png" (env.Encode img)⟩) ∧
    (OTPController.CreateOTPAccount v env repo accountName st).store =
      (repo.SaveSecret accountName key.Secret st).2 ∧
    (OTPController.CreateOTPAccount v env repo accountName st).calls =
      [Call.GetSecret accountName, Call.Generate env.OTP_ISSUER accountName,
        Call.SaveSecret accountName key.Secret
          (repo.SaveSecret accountName key.Secret st).1] := by
  unfold OTPController.CreateOTPAccount OTPService.GetOTPSecret
    OTPService.CreateOTPSecret OTPService.GenerateOTPSecret
  rw [ShouldBindUriOTPUser_ok v accountName hvalid]
  cases hg : (repo.GetSecret accountName st).2 with
  | none => exact absurd hg hmiss
  | some e0 =>
    simp only [hg, hgen]
    cases hs : (repo.SaveSecret accountName key.Secret st).1 with
    | some e => simp
    | none => cases hi : env.Image key 200 200 <;> simp [hi]

/-- A `SaveSecret` call in the log of the create handler: the name was bound, the
lookup failed and a key with that secret was generated. -/
theorem CreateOTPAccount_save_called {σ : Type} (v : Validator) (env : Env)
    (repo : OTPRepository σ) (accountName secret : String) (st : σ) (err : Option Error)
    (h : Call.SaveSecret accountName secret err ∈
      (OTPController.CreateOTPAccount v env repo accountName st).calls) :
    (accountName ≠ "" ∧ v.email accountName = true) ∧
    (repo.GetSecret accountName st).2 ≠ none ∧
    ∃ key, env.Generate env.OTP_ISSUER accountName = .ok key ∧ key.Secret = secret ∧
      (repo.SaveSecret accountName secret st).1 = err := by
  by_cases hvalid : accountName ≠ "" ∧ v.email accountName = true
  · refine ⟨hvalid, ?_⟩
    cases hg : (repo.GetSecret accountName st).2 with
    | none =>
      rw [CreateOTPAccount_found v env repo accountName st hvalid hg] at h
      simp at h
    | some e0 =>
      have hmiss : (repo.GetSecret accountName st).2 ≠ none := by simp [hg]
      refine ⟨by simp, ?_⟩
      cases hgen : env.Generate env.OTP_ISSUER accountName with
      | ok key =>
        rw [(CreateOTPAccount_new v env repo accountName st key hvalid hmiss hgen).2.2] at h
        simp at h
        obtain ⟨h1, h2⟩ := h
        subst h1
        exact ⟨key, rfl, rfl, h2.symm⟩
      | error e1 =>
        unfold OTPController.CreateOTPAccount OTPService.GetOTPSecret
          OTPService.CreateOTPSecret OTPService.GenerateOTPSecret at h
        rw [ShouldBindUriOTPUser_ok v accountName hvalid] at h
        simp [hg, hgen] at h
  · have hbad : accountName = "" ∨ v.email accountName = false := by
      by_cases h0 : accountName = ""
      · exact Or.inl h0
      · right
        cases hm : v.email accountName
        · rfl
        · exact absurd ⟨h0, hm⟩ hvalid
    obtain ⟨e, he⟩ := ShouldBindUriOTPUser_error v accountName hbad
    rw [CreateOTPAccount_unbound v env repo accountName st e he] at h
    simp at h

/-- C3: over the Badger store, whose `GetSecret` fails exactly for an absent name when
reads do not fault: for every valid account name absent from the store, when the key
is generated, the write succeeds and the key renders, a first create request responds
200 with the encoded image and the store then holds the secret of the key under that
name; a second create request for the same name responds 400 "OTP already created",
makes no `SaveSecret` call and does not change the store. -/
theorem create_exactly_once (v : Validator) (env env2 : Env) (f f2 : Faults)
    (accountName : String) (conn : DB) (key : Key) (img : Image)
    (hvalid : accountName ≠ "" ∧ v.email accountName = true)
    (habsent : conn.get accountName = none)
    (hgen : env.Generate env.OTP_ISSUER accountName = .ok key)
    (hwrite : ((OTPBadgerRepository f).SaveSecret accountName key.Secret conn).1 = none)
    (himg : env.Image key 200 200 = .ok img)
    (hreads : f2.readsOk) :
    (OTPController.CreateOTPAccount v env (OTPBadgerRepository f) accountName conn).value =
      ⟨200, .Data "image/png" (env.Encode img)⟩ ∧
    (OTPController.CreateOTPAccount v env (OTPBadgerRepository f) accountName
      conn).store.get accountName = some key.Secret ∧
    (OTPController.CreateOTPAccount v env2 (OTPBadgerRepository f2) accountName
      (OTPController.CreateOTPAccount v env (OTPBadgerRepository f) accountName
        conn).store).value = ⟨400, .JSON "error" "OTP already created"⟩ ∧
    (∀ c ∈ (OTPController.CreateOTPAccount v env2 (OTPBadgerRepository f2) accountName
      (OTPController.CreateOTPAccount v env (OTPBadgerRepository f) accountName
        conn).store).calls, c.isSave = false) ∧
    (OTPController.CreateOTPAccount v env2 (OTPBadgerRepository f2) accountName
      (OTPController.CreateOTPAccount v env (OTPBadgerRepository f) accountName
        conn).store).store =
      (OTPController.CreateOTPAccount v env (OTPBadgerRepository f) accountName
        conn).store := by
  have hmiss : ((OTPBadgerRepository f).GetSecret accountName conn).2 ≠ none := by
    exact (GetSecret_absent f accountName conn habsent).2.1
  obtain ⟨h1, h2, _⟩ :=
    CreateOTPAccount_new v env (OTPBadgerRepository f) accountName conn key hvalid hmiss hgen
  have hput : (OTPController.CreateOTPAccount v env (OTPBadgerRepository f) accountName
      conn).store = DB.put conn accountName key.Secret := by
    rw [h2]; exact SaveSecret_done f accountName key.Secret conn hwrite
  have hstored : (OTPController.CreateOTPAccount v env (OTPBadgerRepository f) accountName
      conn).store.get accountName = some key.Secret := by
    rw [hput]; exact DB.get_put_same conn accountName key.Secret
  have hfound : ((OTPBadgerRepository f2).GetSecret accountName
      (OTPController.CreateOTPAccount v env (OTPBadgerRepository f) accountName
        conn).store).2 = none := by
    show (OTPBadgerRepository.GetSecret f2 accountName _).2 = none
    rw [GetSecret_present f2 accountName key.Secret _ hstored hreads]
  have hdup :=
    CreateOTPAccount_found v env2 (OTPBadgerRepository f2) accountName _ hvalid hfound
  refine ⟨?_, hstored, by rw [hdup], ?_, by rw [hdup]⟩
  · rw [h1, hwrite]
    simp [himg]
  · rw [hdup]
    simp [Call.isSave]

theorem create_exactly_once_witness :
    (OTPController.CreateOTPAccount exampleValidator exampleEnv
        (OTPBadgerRepository Faults.healthy) "gabrielricci+new@gmail.com" []).value =
      ⟨200, .Data "image/png" [0]⟩ ∧
    (OTPController.CreateOTPAccount exampleValidator exampleEnv
        (OTPBadgerRepository Faults.healthy) "gabrielricci+new@gmail.com"
        [("gabrielricci+new@gmail.com", "SECRET1")]).value =
      ⟨400, .JSON "error" "OTP already created"⟩ :=
  have h := create_exactly_once exampleValidator exampleEnv exampleEnv Faults.healthy
    Faults.healthy "gabrielricci+new@gmail.com" []
    ⟨"Test", "gabrielricci+new@gmail.com", "SECRET1"⟩ ⟨[0]⟩
    (by decide) (by decide) rfl (by decide) rfl Faults.healthy_readsOk
  ⟨h.1, h.2.2.1⟩

/-- A `CreateOTPSecret` that returns a key and no error generated that key and saved
its secret without error. -/
theorem CreateOTPSecret_succeeded {σ : Type} (env : Env) (repo : OTPRepository σ)
    (otpUser : OTPUser) (st : σ) (k : Key)
    (h : (OTPService.CreateOTPSecret env repo otpUser st).value = (some k, none)) :
    env.Generate env.OTP_ISSUER otpUser.AccountName = .ok k ∧
    (repo.SaveSecret otpUser.AccountName k.Secret st).1 = none := by
  unfold OTPService.CreateOTPSecret OTPService.GenerateOTPSecret at h
  cases hg : env.Generate env.OTP_ISSUER otpUser.AccountName with
  | error e => simp [hg] at h
  | ok key =>
    simp [hg] at h
    obtain ⟨h1, h2⟩ := h
    subst h1
    exact ⟨rfl, h2⟩

/-- C4: round trip on the Badger repository.  For every account name and database, if
`CreateOTPSecret` succeeds and returns the key `k`, then its one `SaveSecret` call wrote
the secret of `k` under the account name, the database holds exactly that string under
the name, and a following `GetOTPSecret` for the same name, read without an engine
fault, returns that string with no error. -/
theorem secret_roundtrip (env : Env) (f f2 : Faults) (otpUser : OTPUser) (conn : DB)
    (k : Key)
    (hcreate : (OTPService.CreateOTPSecret env (OTPBadgerRepository f) otpUser
      conn).value = (some k, none))
    (hreads : f2.readsOk) :
    (OTPService.CreateOTPSecret env (OTPBadgerRepository f) otpUser conn).calls =
      [Call.Generate env.OTP_ISSUER otpUser.AccountName,
        Call.SaveSecret otpUser.AccountName k.Secret none] ∧
    (OTPService.CreateOTPSecret env (OTPBadgerRepository f) otpUser
      conn).store.get otpUser.AccountName = some k.Secret ∧
    (OTPService.GetOTPSecret (OTPBadgerRepository f2) otpUser
      (OTPService.CreateOTPSecret env (OTPBadgerRepository f) otpUser conn).store).value =
      (k.Secret, none) := by
  obtain ⟨hgen, hsave⟩ :=
    CreateOTPSecret_succeeded env (OTPBadgerRepository f) otpUser conn k hcreate
  have hrun := CreateOTPSecret_generated env (OTPBadgerRepository f) otpUser conn k hgen
  have hstore := congrArg Outcome.store hrun
  have hcalls := congrArg Outcome.calls hrun
  simp only at hstore hcalls
  have hstored : (OTPService.CreateOTPSecret env (OTPBadgerRepository f) otpUser
      conn).store.get otpUser.AccountName = some k.Secret := by
    rw [hstore]
    show (OTPBadgerRepository.SaveSecret f otpUser.AccountName k.Secret conn).2.get _ = _
    rw [SaveSecret_done f otpUser.AccountName k.Secret conn hsave]
    exact DB.get_put_same conn otpUser.AccountName k.Secret
  refine ⟨?_, hstored, ?_⟩
  · rw [hcalls, hsave]
  · show OTPBadgerRepository.GetSecret f2 otpUser.AccountName _ = _
    exact GetSecret_present f2 otpUser.AccountName k.Secret _ hstored hreads

theorem secret_roundtrip_witness :
    (OTPService.CreateOTPSecret exampleEnv (OTPBadgerRepository Faults.healthy)
      ⟨"valid"⟩ []).value = (some ⟨"Test", "valid", "SECRET1"⟩, none) ∧
    (OTPService.GetOTPSecret (OTPBadgerRepository Faults.healthy) ⟨"valid"⟩
      (OTPService.CreateOTPSecret exampleEnv (OTPBadgerRepository Faults.healthy)
        ⟨"valid"⟩ []).store).value = ("SECRET1", none) :=
  ⟨by decide,
    (secret_roundtrip exampleEnv Faults.healthy Faults.healthy ⟨"valid"⟩ []
      ⟨"Test", "valid", "SECRET1"⟩ (by decide) Faults.healthy_readsOk).2.2⟩

/-- C5: on the Badger repository, for every account name with no stored secret, if
the `SaveSecret` call of a create request fails with the error `e`, then
`CreateOTPSecret` returns exactly `e`, the create handler responds 500 with the message
of `e` as the error, and the database is left as it was.  A subsequent create for the
same name whose key is generated and whose write succeeds then succeeds:
`CreateOTPSecret` returns the new key without error, the database holds its secret, and
the handler responds 200 with the image once the key renders. -/
theorem SaveSecret_failure_surfaced (v : Validator) (env : Env) (f : Faults)
    (accountName secret : String) (conn : DB) (e : Error)
    (habsent : conn.get accountName = none)
    (hfail : Call.SaveSecret accountName secret (some e) ∈
      (OTPController.CreateOTPAccount v env (OTPBadgerRepository f) accountName
        conn).calls) :
    (OTPService.CreateOTPSecret env (OTPBadgerRepository f) ⟨accountName⟩ conn).value.2 =
      some e ∧
    (OTPService.CreateOTPSecret env (OTPBadgerRepository f) ⟨accountName⟩ conn).store =
      conn ∧
    (OTPController.CreateOTPAccount v env (OTPBadgerRepository f) accountName conn).value =
      ⟨500, .JSON "error" e.msg⟩ ∧
    (OTPController.CreateOTPAccount v env (OTPBadgerRepository f) accountName conn).store =
      conn ∧
    ∀ (env2 : Env) (f2 : Faults) (key2 : Key),
      env2.Generate env2.OTP_ISSUER accountName = .ok key2 →
      ((OTPBadgerRepository f2).SaveSecret accountName key2.Secret
        (OTPController.CreateOTPAccount v env (OTPBadgerRepository f) accountName
          conn).store).1 = none →
      (OTPService.CreateOTPSecret env2 (OTPBadgerRepository f2) ⟨accountName⟩
        (OTPController.CreateOTPAccount v env (OTPBadgerRepository f) accountName
          conn).store).value = (some key2, none) ∧
      (OTPController.CreateOTPAccount v env2 (OTPBadgerRepository f2) accountName
        (OTPController.CreateOTPAccount v env (OTPBadgerRepository f) accountName
          conn).store).store.get accountName = some key2.Secret ∧
      ∀ img, env2.Image key2 200 200 = .ok img →
        (OTPController.CreateOTPAccount v env2 (OTPBadgerRepository f2) accountName
          (OTPController.CreateOTPAccount v env (OTPBadgerRepository f) accountName
            conn).store).value = ⟨200, .Data "image/png" (env2.Encode img)⟩ := by
  obtain ⟨hvalid, hmiss, key, hgen, hsec, hsave⟩ :=
    CreateOTPAccount_save_called v env (OTPBadgerRepository f) accountName secret conn
      (some e) hfail
  subst hsec
  obtain ⟨h1, h2, _⟩ :=
    CreateOTPAccount_new v env (OTPBadgerRepository f) accountName conn key hvalid hmiss hgen
  have hrun := CreateOTPSecret_generated env (OTPBadgerRepository f) ⟨accountName⟩ conn
    key hgen
  have s1 := congrArg Outcome.value hrun
  have s2 := congrArg Outcome.store hrun
  simp only at s1 s2
  have hsame : ((OTPBadgerRepository f).SaveSecret accountName key.Secret conn).2 = conn :=
    SaveSecret_failed f accountName key.Secret conn e hsave
  have hstore : (OTPController.CreateOTPAccount v env (OTPBadgerRepository f) accountName
      conn).store = conn := by rw [h2, hsame]
  refine ⟨by rw [s1]; exact hsave, by rw [s2]; exact hsame, by rw [h1, hsave], hstore, ?_⟩
  rw [hstore]
  intro env2 f2 key2 hgen2 hsave2
  have hmiss2 : ((OTPBadgerRepository f2).GetSecret accountName conn).2 ≠ none := by
    exact (GetSecret_absent f2 accountName conn habsent).2.1
  obtain ⟨n1, n2, _⟩ :=
    CreateOTPAccount_new v env2 (OTPBadgerRepository f2) accountName conn key2 hvalid
      hmiss2 hgen2
  have t1 := congrArg Outcome.value
    (CreateOTPSecret_generated env2 (OTPBadgerRepository f2) ⟨accountName⟩ conn key2 hgen2)
  simp only at t1
  refine ⟨by rw [t1, hsave2], ?_, ?_⟩
  · rw [n2]
    show (OTPBadgerRepository.SaveSecret f2 accountName key2.Secret conn).2.get _ = _
    rw [SaveSecret_done f2 accountName key2.Secret conn hsave2]
    exact DB.get_put_same conn accountName key2.Secret
  · intro img himg
    rw [n1, hsave2]
    simp [himg]

theorem SaveSecret_failure_surfaced_witness :
    (OTPController.CreateOTPAccount exampleValidator exampleEnv
        (OTPBadgerRepository failingCommit) "invalid@gmail.com" []).value =
      ⟨500, .JSON "error" "SIMULATED"⟩ ∧
    (OTPController.CreateOTPAccount exampleValidator exampleEnv
        (OTPBadgerRepository failingCommit) "invalid@gmail.com" []).store = [] :=
  have h := SaveSecret_failure_surfaced exampleValidator exampleEnv failingCommit
    "invalid@gmail.com" "SECRET1" [] ⟨"SIMULATED"⟩ (by decide) (by decide)
  ⟨h.2.2.1, h.2.2.2.1⟩

/-! ## Validating a code -/

/-- The validate handler on a bound name and a bound code. -/
theorem ValidateCode_bound {σ : Type} (v : Validator) (env : Env) (repo : OTPRepository σ)
    (accountName code : String) (st : σ)
    (hname : accountName ≠ "" ∧ v.email accountName = true) (hcode : code ≠ "") :
    OTPController.ValidateCode v env repo accountName code st =
      (match (repo.GetSecret accountName st).2 with
        | some _ =>
          ⟨⟨404, .JSON "error" "Account not found"⟩, st, [Call.GetSecret accountName]⟩
        | none =>
          if env.Validate code (repo.GetSecret accountName st).1 = false then
            ⟨⟨403, .JSON "error" "Invalid code"⟩, st,
              [Call.GetSecret accountName,
                Call.Validate code (repo.GetSecret accountName st).1]⟩
          else
            ⟨⟨200, .JSON "status" "validated"⟩, st,
              [Call.GetSecret accountName,
                Call.Validate code (repo.GetSecret accountName st).1]⟩) := by
  unfold OTPController.ValidateCode OTPService.GetOTPSecret OTPService.ValidateOTPCode
  rw [ShouldBindUriOTPUser_ok v accountName hname]
  simp only [ShouldBindUriOneTimeCode, hcode, if_false]
  cases hg : (repo.GetSecret accountName st).2 with
  | some e => rfl
  | none =>
    simp only
    cases hv : env.Validate code (repo.GetSecret accountName st).1 <;> simp

/-- The validate handler never changes the store and never calls `SaveSecret`. -/
theorem ValidateCode_reads {σ : Type} (v : Validator) (env : Env) (repo : OTPRepository σ)
    (accountName code : String) (st : σ) :
    (OTPController.ValidateCode v env repo accountName code st).store = st ∧
    (∀ c ∈ (OTPController.ValidateCode v env repo accountName code st).calls,
      c.isSave = false) ∧
    (OTPController.ValidateCode v env repo accountName code st).value.status ∈
      [200, 403, 404, 400] := by
  unfold OTPController.ValidateCode OTPService.GetOTPSecret OTPService.ValidateOTPCode
  cases hb : ShouldBindUriOTPUser v accountName with
  | error e => simp
  | ok user =>
    cases hc : ShouldBindUriOneTimeCode v code with
    | error e => simp
    | ok c =>
      cases hg : (repo.GetSecret user.AccountName st).2 with
      | some e => simp [hg, Call.isSave]
      | none =>
        cases hv : env.Validate c.Code (repo.GetSecret user.AccountName st).1 <;>
          simp [hg, hv, Call.isSave]

/-- C6: for every validation request whose account name and code pass binding, the
response of `ValidateCode` is decided so: when the lookup of the account fails, 404
"Account not found" and `GetSecret` is the only call (the TOTP engine is not consulted);
otherwise, with `s` the stored secret returned by the lookup, 403 "Invalid code" when
`totp.Validate(code, s)` is false and 200 with status "validated" when it is true.
Exactly one of the three responses is given. -/
theorem ValidateCode_decided {σ : Type} (v : Validator) (env : Env)
    (repo : OTPRepository σ) (accountName code : String) (st : σ)
    (hname : accountName ≠ "" ∧ v.email accountName = true) (hcode : code ≠ "") :
    ((repo.GetSecret accountName st).2 ≠ none →
      (OTPController.ValidateCode v env repo accountName code st).value =
        ⟨404, .JSON "error" "Account not found"⟩ ∧
      (OTPController.ValidateCode v env repo accountName code st).calls =
        [Call.GetSecret accountName] ∧
      ∀ c ∈ (OTPController.ValidateCode v env repo accountName code st).calls,
        c.isTOTP = false) ∧
    ((repo.GetSecret accountName st).2 = none →
      env.Validate code (repo.GetSecret accountName st).1 = false →
      (OTPController.ValidateCode v env repo accountName code st).value =
        ⟨403, .JSON "error" "Invalid code"⟩ ∧
      (OTPController.ValidateCode v env repo accountName code st).calls =
        [Call.GetSecret accountName,
          Call.Validate code (repo.GetSecret accountName st).1]) ∧
    ((repo.GetSecret accountName st).2 = none →
      env.Validate code (repo.GetSecret accountName st).1 = true →
      (OTPController.ValidateCode v env repo accountName code st).value =
        ⟨200, .JSON "status" "validated"⟩ ∧
      (OTPController.ValidateCode v env repo accountName code st).calls =
        [Call.GetSecret accountName,
          Call.Validate code (repo.GetSecret accountName st).1]) ∧
    ((OTPController.ValidateCode v env repo accountName code st).value.status = 404 ∧
        (repo.GetSecret accountName st).2 ≠ none ∨
      (OTPController.ValidateCode v env repo accountName code st).value.status = 403 ∧
        (repo.GetSecret accountName st).2 = none ∧
        env.Validate code (repo.GetSecret accountName st).1 = false ∨
      (OTPController.ValidateCode v env repo accountName code st).value.status = 200 ∧
        (repo.GetSecret accountName st).2 = none ∧
        env.Validate code (repo.GetSecret accountName st).1 = true) := by
  rw [ValidateCode_bound v env repo accountName code st hname hcode]
  cases hg : (repo.GetSecret accountName st).2 with
  | some e => simp [Call.isTOTP]
  | none =>
    cases hv : env.Validate code (repo.GetSecret accountName st).1 <;> simp

theorem ValidateCode_decided_witness :
    (OTPController.ValidateCode exampleValidator exampleEnv
        (OTPBadgerRepository Faults.healthy) "gabrielricci+existing@gmail.com" "123123"
        [("gabrielricci+existing@gmail.com", "SECRET0")]).value =
      ⟨403, .JSON "error" "Invalid code"⟩ :=
  ((ValidateCode_decided exampleValidator exampleEnv (OTPBadgerRepository Faults.healthy)
    "gabrielricci+existing@gmail.com" "123123"
    [("gabrielricci+existing@gmail.com", "SECRET0")] (by decide) (by decide)).2.1
      (by decide) (by decide)).1

/-- C7: validation is read-only.  For every repository, store state, account name,
secret and code, `GetOTPSecret`, `ValidateOTPCode` and the handler `ValidateCode` make no
`SaveSecret` call and return the store they were given; the status of the handler is
one of 200, 403, 404 and 400. -/
theorem validation_read_only {σ : Type} (v : Validator) (env : Env)
    (repo : OTPRepository σ) (otpUser : OTPUser) (accountName secret code : String)
    (st : σ) :
    ((OTPService.GetOTPSecret repo otpUser st).store = st ∧
      ∀ c ∈ (OTPService.GetOTPSecret repo otpUser st).calls, c.isSave = false) ∧
    ((OTPService.ValidateOTPCode env secret code st).store = st ∧
      ∀ c ∈ (OTPService.ValidateOTPCode env secret code st).calls, c.isSave = false) ∧
    ((OTPController.ValidateCode v env repo accountName code st).store = st ∧
      (∀ c ∈ (OTPController.ValidateCode v env repo accountName code st).calls,
        c.isSave = false) ∧
      (OTPController.ValidateCode v env repo accountName code st).value.status ∈
        [200, 403, 404, 400]) := by
  refine ⟨⟨rfl, ?_⟩, ⟨rfl, ?_⟩, ValidateCode_reads v env repo accountName code st⟩
  · intro c hc
    simp only [OTPService.GetOTPSecret, List.mem_singleton] at hc
    rw [hc]; rfl
  · intro c hc
    simp only [OTPService.ValidateOTPCode, List.mem_singleton] at hc
    rw [hc]; rfl

/-- C9: for every account name that fails URI binding (empty, or rejected by the
`email` tag), the create handler and the validate handler both respond 400 with the
binding error and return at once: they make no call (no `GetSecret`, no `SaveSecret`,
no `totp.Generate`) and the store is unchanged. -/
theorem unbound_name_rejected {σ : Type} (v : Validator) (env : Env)
    (repo : OTPRepository σ) (accountName code : String) (st : σ)
    (hbad : accountName = "" ∨ v.email accountName = false) :
    ∃ err, ShouldBindUriOTPUser v accountName = .error err ∧
      OTPController.CreateOTPAccount v env repo accountName st =
        ⟨⟨400, .JSON "error" err.msg⟩, st, []⟩ ∧
      OTPController.ValidateCode v env repo accountName code st =
        ⟨⟨400, .JSON "error" err.msg⟩, st, []⟩ := by
  obtain ⟨err, he⟩ := ShouldBindUriOTPUser_error v accountName hbad
  refine ⟨err, he, CreateOTPAccount_unbound v env repo accountName st err he, ?_⟩
  simp [OTPController.ValidateCode, he]

theorem unbound_name_rejected_witness :
    ∃ err, ShouldBindUriOTPUser exampleValidator "gabrielricci" = .error err ∧
      OTPController.CreateOTPAccount exampleValidator exampleEnv
          (OTPBadgerRepository Faults.healthy) "gabrielricci" [] =
        ⟨⟨400, .JSON "error" err.msg⟩, [], []⟩ ∧
      OTPController.ValidateCode exampleValidator exampleEnv
          (OTPBadgerRepository Faults.healthy) "gabrielricci" "123123" [] =
        ⟨⟨400, .JSON "error" err.msg⟩, [], []⟩ :=
  unbound_name_rejected exampleValidator exampleEnv (OTPBadgerRepository Faults.healthy)
    "gabrielricci" "123123" [] (Or.inr (by decide))

/-! ## What a sequence of requests does to the database -/

/-- The create handler on a bound name whose lookup fails and whose generation fails. -/
theorem CreateOTPAccount_not_generated {σ : Type} (v : Validator) (env : Env)
    (repo : OTPRepository σ) (accountName : String) (st : σ) (err : Error)
    (hvalid : accountName ≠ "" ∧ v.email accountName = true)
    (hmiss : (repo.GetSecret accountName st).2 ≠ none)
    (hgen : env.Generate env.OTP_ISSUER accountName = .error err) :
    OTPController.CreateOTPAccount v env repo accountName st =
      ⟨⟨500, .JSON "error" err.msg⟩, st,
        [Call.GetSecret accountName, Call.Generate env.OTP_ISSUER accountName]⟩ := by
  unfold OTPController.CreateOTPAccount OTPService.GetOTPSecret
    OTPService.CreateOTPSecret OTPService.GenerateOTPSecret
  rw [ShouldBindUriOTPUser_ok v accountName hvalid]
  cases hg : (repo.GetSecret accountName st).2 with
  | none => exact absurd hg hmiss
  | some e0 => simp [hg, hgen]

/-- Run of `CreateOTPSecret` on the Badger repository: it leaves the database as it was, or writes
one entry through a `SaveSecret` call that returned no error. -/
theorem CreateOTPSecret_store (env : Env) (f : Faults) (otpUser : OTPUser) (conn : DB) :
    (OTPService.CreateOTPSecret env (OTPBadgerRepository f) otpUser conn).store = conn ∨
    ∃ secret,
      (OTPService.CreateOTPSecret env (OTPBadgerRepository f) otpUser conn).store =
        DB.put conn otpUser.AccountName secret ∧
      Call.SaveSecret otpUser.AccountName secret none ∈
        (OTPService.CreateOTPSecret env (OTPBadgerRepository f) otpUser conn).calls := by
  cases hgen : env.Generate env.OTP_ISSUER otpUser.AccountName with
  | error err =>
    left
    rw [CreateOTPSecret_not_generated env _ otpUser conn err hgen]
  | ok key =>
    rw [CreateOTPSecret_generated env _ otpUser conn key hgen]
    cases hs : ((OTPBadgerRepository f).SaveSecret otpUser.AccountName key.Secret conn).1 with
    | some e =>
      left
      exact SaveSecret_failed f otpUser.AccountName key.Secret conn e hs
    | none =>
      right
      exact ⟨key.Secret, SaveSecret_done f otpUser.AccountName key.Secret conn hs, by simp⟩

/-- The create handler on the Badger repository leaves the database as it was, or
writes one entry through a `SaveSecret` call that returned no error. -/
theorem CreateOTPAccount_store (v : Validator) (env : Env) (f : Faults)
    (accountName : String) (conn : DB) :
    (OTPController.CreateOTPAccount v env (OTPBadgerRepository f) accountName
      conn).store = conn ∨
    ∃ secret,
      (OTPController.CreateOTPAccount v env (OTPBadgerRepository f) accountName
        conn).store = DB.put conn accountName secret ∧
      Call.SaveSecret accountName secret none ∈
        (OTPController.CreateOTPAccount v env (OTPBadgerRepository f) accountName
          conn).calls := by
  by_cases hvalid : accountName ≠ "" ∧ v.email accountName = true
  · cases hg : ((OTPBadgerRepository f).GetSecret accountName conn).2 with
    | none =>
      left
      rw [CreateOTPAccount_found v env _ accountName conn hvalid hg]
    | some e0 =>
      have hmiss : ((OTPBadgerRepository f).GetSecret accountName conn).2 ≠ none := by
        simp [hg]
      cases hgen : env.Generate env.OTP_ISSUER accountName with
      | error err =>
        left
        rw [CreateOTPAccount_not_generated v env _ accountName conn err hvalid hmiss hgen]
      | ok key =>
        obtain ⟨_, h2, h3⟩ :=
          CreateOTPAccount_new v env _ accountName conn key hvalid hmiss hgen
        rw [h2, h3]
        cases hs : ((OTPBadgerRepository f).SaveSecret accountName key.Secret conn).1 with
        | some e =>
          left
          exact SaveSecret_failed f accountName key.Secret conn e hs
        | none =>
          right
          exact ⟨key.Secret, SaveSecret_done f accountName key.Secret conn hs, by simp⟩
  · have hbad : accountName = "" ∨ v.email accountName = false := by
      by_cases h0 : accountName = ""
      · exact Or.inl h0
      · right
        cases hm : v.email accountName
        · rfl
        · exact absurd ⟨h0, hm⟩ hvalid
    obtain ⟨e, he⟩ := ShouldBindUriOTPUser_error v accountName hbad
    left
    rw [CreateOTPAccount_unbound v env _ accountName conn e he]

/-- A request leaves the database as it was, or writes one entry through a
`SaveSecret` call that returned no error. -/
theorem Op.run_store (v : Validator) (op : Op) (conn : DB) :
    (op.run v conn).1 = conn ∨
    ∃ accountName secret, (op.run v conn).1 = DB.put conn accountName secret ∧
      Call.SaveSecret accountName secret none ∈ (op.run v conn).2 := by
  cases op with
  | CreateOTPAccount env f accountName =>
    rcases CreateOTPAccount_store v env f accountName conn with h | ⟨secret, h1, h2⟩
    · exact Or.inl h
    · exact Or.inr ⟨accountName, secret, h1, h2⟩
  | ValidateCode env f accountName code =>
    exact Or.inl (ValidateCode_reads v env (OTPBadgerRepository f) accountName code conn).1
  | CreateOTPSecret env f otpUser =>
    rcases CreateOTPSecret_store env f otpUser conn with h | ⟨secret, h1, h2⟩
    · exact Or.inl h
    · exact Or.inr ⟨otpUser.AccountName, secret, h1, h2⟩

/-- A name without a stored secret has none after any sequence of requests in which
no `SaveSecret` for that name returned without error. -/
theorem serve_absent (v : Validator) (accountName : String) (ops : List Op) :
    ∀ conn : DB, conn.get accountName = none →
      (∀ secret, Call.SaveSecret accountName secret none ∉ (serve v ops conn).2) →
      (serve v ops conn).1.get accountName = none := by
  induction ops with
  | nil => intro conn h _; exact h
  | cons op rest ih =>
    intro conn h hno
    simp only [serve] at hno ⊢
    apply ih
    · rcases Op.run_store v op conn with hs | ⟨n, secret, hs, hcall⟩
      · rw [hs]; exact h
      · rw [hs]
        by_cases hn : accountName = n
        · subst hn
          exact absurd (List.mem_append_left _ hcall) (hno secret)
        · rw [DB.get_put_other conn n secret accountName hn]; exact h
    · intro secret hmem
      exact hno secret (List.mem_append_right _ hmem)

/-- A stored name stays stored through any sequence of requests. -/
theorem serve_present (v : Validator) (accountName : String) (ops : List Op) :
    ∀ conn : DB, (conn.get accountName).isSome = true →
      ((serve v ops conn).1.get accountName).isSome = true := by
  induction ops with
  | nil => intro conn h; exact h
  | cons op rest ih =>
    intro conn h
    simp only [serve]
    apply ih
    rcases Op.run_store v op conn with hs | ⟨n, secret, hs, _⟩
    · rw [hs]; exact h
    · rw [hs]
      by_cases hn : accountName = n
      · subst hn
        rw [DB.get_put_same]; rfl
      · rw [DB.get_put_other conn n secret accountName hn]; exact h

/-! ## Reading a secret -/

/-- C8: for every account name, `GetOTPSecret` returns exactly what `GetSecret` of the
repository returns for that name.  On the Badger repository that is the stored secret
with no error when one is stored and read without an engine fault, and an error
together with the empty string when, starting from an empty database, no `SaveSecret`
for that name has returned without error, that is, when no `CreateOTPSecret` for the
name has succeeded before; the error is `ErrKeyNotFound` unless the engine fails
otherwise. -/
theorem GetOTPSecret_returns_GetSecret (otpUser : OTPUser) :
    (∀ {σ : Type} (repo : OTPRepository σ) (st : σ),
      (OTPService.GetOTPSecret repo otpUser st).value =
        repo.GetSecret otpUser.AccountName st) ∧
    (∀ (f : Faults) (conn : DB) (secret : String),
      conn.get otpUser.AccountName = some secret → f.readsOk →
      (OTPService.GetOTPSecret (OTPBadgerRepository f) otpUser conn).value =
        (secret, none)) ∧
    (∀ (v : Validator) (f : Faults) (ops : List Op),
      (∀ secret, Call.SaveSecret otpUser.AccountName secret none ∉ (serve v ops []).2) →
      (OTPService.GetOTPSecret (OTPBadgerRepository f) otpUser
        (serve v ops []).1).value.1 = "" ∧
      (OTPService.GetOTPSecret (OTPBadgerRepository f) otpUser
        (serve v ops []).1).value.2 ≠ none ∧
      (f.Get otpUser.AccountName = none →
        (OTPService.GetOTPSecret (OTPBadgerRepository f) otpUser
          (serve v ops []).1).value = ("", some ErrKeyNotFound))) := by
  refine ⟨fun _ _ => rfl, ?_, ?_⟩
  · intro f conn secret hstored hreads
    exact GetSecret_present f otpUser.AccountName secret conn hstored hreads
  · intro v f ops hno
    exact GetSecret_absent f otpUser.AccountName _
      (serve_absent v otpUser.AccountName ops [] rfl hno)

theorem GetOTPSecret_returns_GetSecret_witness :
    (OTPService.GetOTPSecret (OTPBadgerRepository Faults.healthy) ⟨"blablabla"⟩
      (serve exampleValidator
        [Op.CreateOTPAccount exampleEnv Faults.healthy "gabrielricci+new@gmail.com",
          Op.ValidateCode exampleEnv Faults.healthy "blablabla" "123123"] []).1).value =
      ("", some ErrKeyNotFound) :=
  ((GetOTPSecret_returns_GetSecret ⟨"blablabla"⟩).2.2 exampleValidator Faults.healthy
    [Op.CreateOTPAccount exampleEnv Faults.healthy "gabrielricci+new@gmail.com",
      Op.ValidateCode exampleEnv Faults.healthy "blablabla" "123123"]
    (by
      have hcalls : (serve exampleValidator
          [Op.CreateOTPAccount exampleEnv Faults.healthy "gabrielricci+new@gmail.com",
            Op.ValidateCode exampleEnv Faults.healthy "blablabla" "123123"] []).2 =
          [Call.GetSecret "gabrielricci+new@gmail.com",
            Call.Generate "Test" "gabrielricci+new@gmail.com",
            Call.SaveSecret "gabrielricci+new@gmail.com" "SECRET1" none] := by decide
      intro secret hmem
      rw [hcalls] at hmem
      simp at hmem)).2.2 rfl

/-! ## A key that does not render -/

/-- C10: on the Badger repository, for every valid account name with no stored secret,
if the key is generated and the write succeeds but `key.Image` fails, the create
handler responds 400 with the error of the rendering (not 200 and not 500) while the
secret of the key is persisted under the name; every later create request for that
name, after any sequence of other requests and read without an engine fault, responds
400 "OTP already created". -/
theorem image_failure_keeps_secret (v : Validator) (env : Env) (f : Faults)
    (accountName : String) (conn : DB) (key : Key) (err : Error)
    (hvalid : accountName ≠ "" ∧ v.email accountName = true)
    (habsent : conn.get accountName = none)
    (hgen : env.Generate env.OTP_ISSUER accountName = .ok key)
    (hwrite : ((OTPBadgerRepository f).SaveSecret accountName key.Secret conn).1 = none)
    (himg : env.Image key 200 200 = .error err) :
    (OTPController.CreateOTPAccount v env (OTPBadgerRepository f) accountName conn).value =
      ⟨400, .JSON "error" err.msg⟩ ∧
    (OTPController.CreateOTPAccount v env (OTPBadgerRepository f) accountName
      conn).store.get accountName = some key.Secret ∧
    (∀ (env2 : Env) (f2 : Faults), f2.readsOk →
      OTPController.CreateOTPAccount v env2 (OTPBadgerRepository f2) accountName
          (OTPController.CreateOTPAccount v env (OTPBadgerRepository f) accountName
            conn).store =
        ⟨⟨400, .JSON "error" "OTP already created"⟩,
          (OTPController.CreateOTPAccount v env (OTPBadgerRepository f) accountName
            conn).store, [Call.GetSecret accountName]⟩) ∧
    (∀ (ops : List Op) (env2 : Env) (f2 : Faults), f2.readsOk →
      (OTPController.CreateOTPAccount v env2 (OTPBadgerRepository f2) accountName
        (serve v ops (OTPController.CreateOTPAccount v env (OTPBadgerRepository f)
          accountName conn).store).1).value =
        ⟨400, .JSON "error" "OTP already created"⟩) := by
  have hmiss : ((OTPBadgerRepository f).GetSecret accountName conn).2 ≠ none := by
    exact (GetSecret_absent f accountName conn habsent).2.1
  obtain ⟨h1, h2, _⟩ :=
    CreateOTPAccount_new v env (OTPBadgerRepository f) accountName conn key hvalid hmiss hgen
  have hstored : (OTPController.CreateOTPAccount v env (OTPBadgerRepository f) accountName
      conn).store.get accountName = some key.Secret := by
    rw [h2]
    show (OTPBadgerRepository.SaveSecret f accountName key.Secret conn).2.get _ = _
    rw [SaveSecret_done f accountName key.Secret conn hwrite]
    exact DB.get_put_same conn accountName key.Secret
  refine ⟨?_, hstored, ?_, ?_⟩
  · rw [h1, hwrite]
    simp [himg]
  · intro env2 f2 hreads
    apply CreateOTPAccount_found v env2 (OTPBadgerRepository f2) accountName _ hvalid
    show (OTPBadgerRepository.GetSecret f2 accountName _).2 = none
    rw [GetSecret_present f2 accountName key.Secret _ hstored hreads]
  · intro ops env2 f2 hreads
    have hsome := serve_present v accountName ops _ (by rw [hstored]; rfl)
    obtain ⟨secret, hsec⟩ := Option.isSome_iff_exists.mp hsome
    have hfound : ((OTPBadgerRepository f2).GetSecret accountName
        (serve v ops (OTPController.CreateOTPAccount v env (OTPBadgerRepository f)
          accountName conn).store).1).2 = none := by
      show (OTPBadgerRepository.GetSecret f2 accountName _).2 = none
      rw [GetSecret_present f2 accountName secret _ hsec hreads]
    rw [CreateOTPAccount_found v env2 (OTPBadgerRepository f2) accountName _ hvalid hfound]

theorem image_failure_keeps_secret_witness :
    (OTPController.CreateOTPAccount exampleValidator noImageEnv
        (OTPBadgerRepository Faults.healthy) "gabrielricci+new@gmail.com" []).value =
      ⟨400, .JSON "error" "can not scale barcode"⟩ ∧
    (OTPController.CreateOTPAccount exampleValidator noImageEnv
        (OTPBadgerRepository Faults.healthy) "gabrielricci+new@gmail.com"
        []).store.get "gabrielricci+new@gmail.com" = some "SECRET1" :=
  have h := image_failure_keeps_secret exampleValidator noImageEnv Faults.healthy
    "gabrielricci+new@gmail.com" [] ⟨"Test", "gabrielricci+new@gmail.com", "SECRET1"⟩
    ⟨"can not scale barcode"⟩ (by decide) (by decide) rfl (by decide) rfl
  ⟨h.1, h.2.1⟩

end OtpManager
